import Mathlib

/-!
Verification development for the gpu-server inference gateway
(config.py, llama_client.py, routes.py).

The embedding is shallow: Python dict payloads become Lean structures,
optional JSON fields become Option values, Python float settings become
rationals, the tenacity retry decorator becomes an explicit fuel-bounded
recursion, and the SSE generators become functions producing lists of
events. Python attribute lookup on objects whose class is defined in the
sources is modelled by membership in the list of attribute names the class
actually defines.
-/

namespace GpuServer

/-! ### config.py -/

/-- Settings, from config.py lines 8-55: every declared field with its
default value. Float defaults are embedded as rationals. Note that no
field named chat_template is declared. -/
structure Settings where
  host : String := "0.0.0.0"
  port : Nat := 8080
  server_id : String := "gpu-1"
  model_path : String := "/models/model.gguf"
  n_gpu_layers : Nat := 33
  n_ctx : Nat := 8192
  n_batch : Nat := 128
  n_ubatch : Nat := 128
  n_threads : Nat := 2
  cache_reuse : Nat := 256
  cache_type_k : String := "q8_0"
  cache_type_v : String := "q8_0"
  llama_server_host : String := "127.0.0.1"
  llama_server_port : Nat := 8081
  extra_args : String := ""
  default_temperature : ℚ := 4/5
  default_top_p : ℚ := 19/20
  default_top_k : Nat := 40
  default_repeat_penalty : ℚ := 11/10
  default_max_tokens : Nat := 512
  max_concurrent_requests : Nat := 1
  request_timeout : Nat := 120
  enable_metrics : Bool := true
  metrics_port : Nat := 9091
  log_level : String := "INFO"
deriving Repr

/-- The module-level settings instance (config.py line 58), with every
field at its declared default. -/
def settings : Settings := {}

/-- The names of the fields the Settings class declares (config.py lines
12-50). Python attribute access on the settings object succeeds exactly
for these names: the model config uses extra = "ignore", so no other
attribute ever exists on the instance. -/
def settingsFieldNames : List String :=
  ["host", "port", "server_id", "model_path", "n_gpu_layers", "n_ctx",
   "n_batch", "n_ubatch", "n_threads", "cache_reuse", "cache_type_k",
   "cache_type_v", "llama_server_host", "llama_server_port", "extra_args",
   "default_temperature", "default_top_p", "default_top_k",
   "default_repeat_penalty", "default_max_tokens",
   "max_concurrent_requests", "request_timeout", "enable_metrics",
   "metrics_port", "log_level"]

/-! ### Python falsy-or merging of optional sampling values

llama_client.py lines 50-58 and 82-90 merge caller values with configured
defaults using the Python expression x or default, which yields the
default both when x is None (the field was unset) and when x is a falsy
value such as 0 or 0.0. -/

/-- Python value-or-default on an optional rational: yields the default
when the value is absent or equal to zero (Python falsiness). -/
def pyOrQ : Option ℚ → ℚ → ℚ
  | none, d => d
  | some v, d => if v = 0 then d else v

/-- Python value-or-default on an optional natural: yields the default
when the value is absent or equal to zero (Python falsiness). -/
def pyOrNat : Option Nat → Nat → Nat
  | none, d => d
  | some v, d => if v = 0 then d else v

/-- Python truthiness of the optional stop list (llama_client.py lines
60-61 and 92-93): the stop key is added to the payload only when the
caller passed a non-empty list. -/
def resolveStop : Option (List String) → Option (List String)
  | none => none
  | some l => if l = [] then none else some l

/-- The JSON payload LlamaClient.completion and completion_stream post to
the backend /completion endpoint. Every sampling field is a total
(non-optional) field of the payload; stop is optional because the key is
only conditionally added. -/
structure CompletionPayload where
  prompt : String
  n_predict : Nat
  temperature : ℚ
  top_p : ℚ
  top_k : Nat
  repeat_penalty : ℚ
  stream : Bool
  stop : Option (List String)
deriving DecidableEq, Repr

/-- Payload construction in LlamaClient.completion (llama_client.py lines
50-61): sampling fields are merged against configured defaults with the
falsy-or, stream is false. -/
def completionPayload (prompt : String) (max_tokens : Option Nat)
    (temperature top_p : Option ℚ) (top_k : Option Nat)
    (repeat_penalty : Option ℚ) (stop : Option (List String)) :
    CompletionPayload :=
  { prompt := prompt
    n_predict := pyOrNat max_tokens settings.default_max_tokens
    temperature := pyOrQ temperature settings.default_temperature
    top_p := pyOrQ top_p settings.default_top_p
    top_k := pyOrNat top_k settings.default_top_k
    repeat_penalty := pyOrQ repeat_penalty settings.default_repeat_penalty
    stream := false
    stop := resolveStop stop }

/-- Payload construction in LlamaClient.completion_stream (llama_client.py
lines 82-93): identical merging, stream is true. -/
def completionStreamPayload (prompt : String) (max_tokens : Option Nat)
    (temperature top_p : Option ℚ) (top_k : Option Nat)
    (repeat_penalty : Option ℚ) (stop : Option (List String)) :
    CompletionPayload :=
  { prompt := prompt
    n_predict := pyOrNat max_tokens settings.default_max_tokens
    temperature := pyOrQ temperature settings.default_temperature
    top_p := pyOrQ top_p settings.default_top_p
    top_k := pyOrNat top_k settings.default_top_k
    repeat_penalty := pyOrQ repeat_penalty settings.default_repeat_penalty
    stream := true
    stop := resolveStop stop }

/-! ### Backend result JSON and finish_reason shaping -/

/-- The JSON object the backend returns for a non-streaming /completion
call, restricted to the keys the gateway reads. Each key may be absent. -/
structure LlamaResult where
  content : Option String
  stop : Option Bool
  tokens_evaluated : Option Nat
  tokens_predicted : Option Nat
deriving DecidableEq, Repr

/-- finish_reason shaping in routes.create_completion (routes.py line
141): "stop" if result.get("stop") is truthy else "length". -/
def routeFinishReason (result : LlamaResult) : String :=
  if result.stop.getD false then "stop" else "length"

/-- finish_reason shaping in LlamaClient.chat_completion (llama_client.py
line 172): "stop" if result.get("stop", False) else "length". -/
def chatFinishReason (result : LlamaResult) : String :=
  if result.stop.getD false then "stop" else "length"

/-! ### Chat message dicts and the two prompt templates -/

/-- A chat-message dict as the template methods see it: each key may be
absent, because _llama3_template and _chatml_template read the keys with
message.get("role", "user") and message.get("content", ""). The dicts
built by the route (routes.py line 171) always carry both keys. -/
structure PyMessage where
  role : Option String
  content : Option String
deriving DecidableEq, Repr

/-- message.get("role", "user") from llama_client.py lines 205 and 228. -/
def getRole (m : PyMessage) : String := m.role.getD "user"

/-- message.get("content", "") from llama_client.py lines 206 and 229. -/
def getContent (m : PyMessage) : String := m.content.getD ""

/-- The parts one message contributes in LlamaClient._llama3_template
(llama_client.py lines 204-213): one rendered turn for the three known
roles, nothing for any other role string. -/
def llama3Part (m : PyMessage) : List String :=
  let role := getRole m
  let content := getContent m
  if role = "system" then
    ["<|start_header_id|>system<|end_header_id|>\n\n" ++ content ++ "<|eot_id|>"]
  else if role = "user" then
    ["<|start_header_id|>user<|end_header_id|>\n\n" ++ content ++ "<|eot_id|>"]
  else if role = "assistant" then
    ["<|start_header_id|>assistant<|end_header_id|>\n\n" ++ content ++ "<|eot_id|>"]
  else []

/-- LlamaClient._llama3_template (llama_client.py lines 197-218): begin
marker, the rendered turns, and the open assistant header, concatenated
with no separator. -/
def llama3Template (messages : List PyMessage) : String :=
  String.join (["<|begin_of_text|>"] ++ List.flatten (messages.map llama3Part) ++
    ["<|start_header_id|>assistant<|end_header_id|>\n\n"])

/-- The parts one message contributes in LlamaClient._chatml_template
(llama_client.py lines 227-236). The Python source writes the escape
backslash-backslash-n inside the f-strings, so each rendered turn holds
the TWO characters backslash and n between role and content, not a
newline; the Lean literals below reproduce those two characters. -/
def chatmlPart (m : PyMessage) : List String :=
  let role := getRole m
  let content := getContent m
  if role = "system" then
    ["<|im_start|>system\\n" ++ content ++ "<|im_end|>"]
  else if role = "user" then
    ["<|im_start|>user\\n" ++ content ++ "<|im_end|>"]
  else if role = "assistant" then
    ["<|im_start|>assistant\\n" ++ content ++ "<|im_end|>"]
  else []

/-- LlamaClient._chatml_template (llama_client.py lines 220-241): the
rendered turns plus the open assistant marker, joined with the same
two-character backslash-n separator (the Python join string is also the
escaped backslash-backslash-n). -/
def chatmlTemplate (messages : List PyMessage) : String :=
  String.intercalate "\\n"
    (List.flatten (messages.map chatmlPart) ++ ["<|im_start|>assistant\\n"])

/-- The template dispatch of LlamaClient._messages_to_prompt AFTER the
template name has been read (llama_client.py lines 187-195),
parameterized by the name. Returns the prompt together with a flag that
is true exactly when the unknown-template warning was logged. -/
def dispatchTemplate (chat_template : String) (messages : List PyMessage) :
    String × Bool :=
  let template := chat_template.toLower
  if template = "llama3" then (llama3Template messages, false)
  else if template = "chatml" then (chatmlTemplate messages, false)
  else (llama3Template messages, true)

/-- The attribute read settings.chat_template at llama_client.py line 187,
modelled as a lookup among the fields Settings declares: Python raises
AttributeError for a name outside that list, and chat_template is not in
it, so the ok branch is never taken (its placeholder value is dead). -/
def readChatTemplate : Except String String :=
  if settingsFieldNames.contains "chat_template" then Except.ok ""
  else Except.error "AttributeError: Settings object has no attribute chat_template"

/-- LlamaClient._messages_to_prompt (llama_client.py lines 182-195): read
settings.chat_template, then dispatch on it. The read raises, so the
whole method raises. -/
def messagesToPrompt (messages : List PyMessage) : Except String String :=
  match readChatTemplate with
  | Except.error e => Except.error e
  | Except.ok template => Except.ok (dispatchTemplate template messages).1

/-! ### Pydantic request validation and route dispatch (routes.py) -/

/-- pydantic validation of one Message (routes.py lines 25-27): role and
content are both required str fields, with no constraint on the role
string beyond being present. -/
def validMessage (m : PyMessage) : Bool := m.role.isSome && m.content.isSome

/-- An inbound chat request body before validation: the messages key may
be absent. The sampling fields and flags are omitted here because the
Message list is the only part whose validation the claims are about. -/
structure RawChatRequest where
  messages : Option (List PyMessage)
deriving DecidableEq, Repr

/-- pydantic validation of ChatCompletionRequest (routes.py lines 41-47):
messages is a required List of Message. -/
def validateChatRequest (r : RawChatRequest) : Bool :=
  match r.messages with
  | none => false
  | some ms => ms.all validMessage

/-- An inbound completion request body before validation, carrying the
fields create_completion forwards to LlamaClient.completion. -/
structure RawCompletionRequest where
  prompt : Option String
  max_tokens : Option Nat
  temperature : Option ℚ
  top_p : Option ℚ
  top_k : Option Nat
  repeat_penalty : Option ℚ
  stop : Option (List String)
deriving DecidableEq, Repr

/-- What reaches the backend from the chat route: either the request is
rejected by validation before the handler runs, or the handler dispatches
the validated message list (routes.py line 171 onwards). -/
inductive ChatRouteResult
  | validationError
  | dispatched (messages : List PyMessage)
deriving DecidableEq, Repr

/-- FastAPI validation plus routes.create_chat_completion (routes.py lines
161-185): an invalid body is rejected with a validation error before any
backend work; a valid one has its messages forwarded. -/
def createChatCompletionRoute (r : RawChatRequest) : ChatRouteResult :=
  if validateChatRequest r then
    ChatRouteResult.dispatched (r.messages.getD [])
  else ChatRouteResult.validationError

/-- What reaches the backend from the completion route: either a
validation rejection, or the fully merged payload LlamaClient.completion
posts (routes.py lines 100-124 composed with llama_client.py 50-61). -/
inductive CompletionRouteResult
  | validationError
  | dispatched (payload : CompletionPayload)
deriving DecidableEq, Repr

/-- FastAPI validation plus routes.create_completion non-streaming path:
prompt is the only required field; a present prompt is forwarded to
LlamaClient.completion together with the optional sampling fields. -/
def createCompletionRoute (r : RawCompletionRequest) : CompletionRouteResult :=
  match r.prompt with
  | none => CompletionRouteResult.validationError
  | some p =>
      CompletionRouteResult.dispatched
        (completionPayload p r.max_tokens r.temperature r.top_p r.top_k
          r.repeat_penalty r.stop)

/-! ### The tenacity retry decorator on LlamaClient.completion

llama_client.py lines 34-37 decorate completion with
retry(stop=stop_after_attempt(3), wait=wait_exponential(multiplier=1,
min=1, max=10)). tenacity defaults apply otherwise: the attempt is
retried after ANY raised exception, stop_after_attempt stops once the
attempt number of a failed attempt reaches 3, wait_exponential sleeps
clamp(multiplier * 2 ^ attempt_number, min, max) seconds after the failed
attempt, and the exhausted budget surfaces as a RetryError wrapping the
last exception. -/

/-- What the backend does on one attempt: refuse the connection, or answer
with an HTTP status code and body. -/
inductive BackendBehavior
  | connError
  | response (statusCode : Nat) (body : String)
deriving DecidableEq, Repr

/-- One attempt of the undecorated body of LlamaClient.completion (lines
63-69): a connection failure raises httpx.ConnectError, and
response.raise_for_status raises httpx.HTTPStatusError on any status of
400 or above; otherwise the body is returned. -/
def attemptOutcome (backend : Nat → BackendBehavior) (attemptNumber : Nat) :
    Except String String :=
  match backend attemptNumber with
  | BackendBehavior.connError => Except.error "httpx.ConnectError"
  | BackendBehavior.response statusCode body =>
      if 400 ≤ statusCode then
        Except.error ("httpx.HTTPStatusError " ++ toString statusCode)
      else Except.ok body

/-- tenacity wait_exponential(multiplier=1, min=1, max=10) evaluated after
the failed attempt with the given number: clamp(2 ^ n, 1, 10) seconds. -/
def waitExponential (attemptNumber : Nat) : ℚ :=
  max 1 (min ((2 : ℚ) ^ attemptNumber) 10)

/-- Decidable equality of attempt outcomes, so that traces can be
compared by evaluation. -/
instance : DecidableEq (Except String String) := fun x y =>
  match x, y with
  | Except.ok a, Except.ok b => decidable_of_iff (a = b) (by simp)
  | Except.ok _, Except.error _ => isFalse (by simp)
  | Except.error _, Except.ok _ => isFalse (by simp)
  | Except.error a, Except.error b => decidable_of_iff (a = b) (by simp)

/-- The trace of one decorated call: how many attempts ran, the backoff
sleeps taken between them, and the final outcome. -/
structure RetryTrace where
  attempts : Nat
  waits : List ℚ
  result : Except String String
deriving DecidableEq, Repr

/-- The retry loop: run the attempt; on success stop, on failure either
give up (fuel exhausted, modelling stop_after_attempt) wrapping the last
exception in a RetryError, or sleep the exponential backoff and retry. -/
def retryGo (backend : Nat → BackendBehavior) (attemptNumber fuel : Nat) :
    RetryTrace :=
  match attemptOutcome backend attemptNumber with
  | Except.ok v => ⟨attemptNumber, [], Except.ok v⟩
  | Except.error e =>
      match fuel with
      | 0 => ⟨attemptNumber, [], Except.error ("RetryError: " ++ e)⟩
      | fuel + 1 =>
          let rest := retryGo backend (attemptNumber + 1) fuel
          ⟨rest.attempts, waitExponential attemptNumber :: rest.waits, rest.result⟩

/-- The decorated LlamaClient.completion: attempts start at 1 and
stop_after_attempt(3) allows two retries after the first failure. -/
def retryCompletion (backend : Nat → BackendBehavior) : RetryTrace :=
  retryGo backend 1 2

/-- Boolean success test on an attempt outcome. -/
def isSuccess : Except String String → Bool
  | Except.ok _ => true
  | Except.error _ => false

/-! ### The chat streaming route (routes.py lines 230-266) -/

/-- The attribute names the LlamaClient class defines (llama_client.py
lines 15-261). Python attribute lookup on a client instance succeeds
exactly for these names; chat_completion_stream is not among them. -/
def llamaClientMethods : List String :=
  ["__init__", "health_check", "get_model_info", "completion",
   "completion_stream", "chat_completion", "_messages_to_prompt",
   "_llama3_template", "_chatml_template", "tokenize", "detokenize"]

/-- One server-sent event of the chat streaming response, as shaped by
routes._stream_chat_completion: a chat.completion.chunk with one
delta.content fragment, the final chunk with finish_reason "stop", the
literal DONE marker, or the error event of the except branch. -/
inductive SSEEvent
  | contentChunk (content : String)
  | finishChunk
  | doneMarker
  | errorEvent (message : String)
deriving DecidableEq, Repr

/-- routes._stream_chat_completion (routes.py lines 230-266), given the
token sequence the backend stream would yield: resolving the name
chat_completion_stream on the client raises AttributeError at the async
for header because LlamaClient defines no such attribute, the except
branch catches it and yields a single error event; were the attribute
present, the generator would yield one content chunk per token, then the
final finish chunk, then the DONE marker. -/
def streamChatCompletion (tokens : List String) : List SSEEvent :=
  if llamaClientMethods.contains "chat_completion_stream" then
    tokens.map SSEEvent.contentChunk ++ [SSEEvent.finishChunk, SSEEvent.doneMarker]
  else
    [SSEEvent.errorEvent
      "AttributeError: LlamaClient object has no attribute chat_completion_stream"]

/-! ### Concrete backends and requests used to instantiate the theorems -/

/-- A backend that refuses the connection on the first three attempts and
would answer successfully from the fourth attempt on. -/
def c2Backend : Nat → BackendBehavior := fun n =>
  if n ≤ 3 then BackendBehavior.connError
  else BackendBehavior.response 200 "ok"

/-- A backend that refuses the connection on the first two attempts and
answers successfully from the third attempt on. -/
def c2WitnessBackend : Nat → BackendBehavior := fun n =>
  if n ≤ 2 then BackendBehavior.connError
  else BackendBehavior.response 200 "ok"

/-- A backend that always answers 404, a non-retryable client error. -/
def c3Backend : Nat → BackendBehavior := fun _ =>
  BackendBehavior.response 404 "Not Found"

/-- A backend that always answers 500, a transient server error. -/
def c3WitnessBackend : Nat → BackendBehavior := fun _ =>
  BackendBehavior.response 500 "Internal Server Error"

/-- A chat request whose single message carries the role tool, which is
outside the set of roles the templates render. -/
def c4BadRoleRequest : RawChatRequest :=
  ⟨some [⟨some "tool", some "use the weather tool"⟩]⟩

/-- A message role is rendered by the templates exactly when it is one of
the three recognized role strings (after the get default). -/
def knownRole (m : PyMessage) : Bool :=
  getRole m == "system" || getRole m == "user" || getRole m == "assistant"

/-! ### Helper lemmas -/

/-- An attempt outcome that is not a success is an error. -/
theorem error_of_not_success (x : Except String String)
    (h : isSuccess x = false) : ∃ e, x = Except.error e := by
  cases x with
  | ok v => simp [isSuccess] at h
  | error e => exact ⟨e, rfl⟩

/-- Every exponential backoff sleep is clamped between 1 and 10 seconds. -/
theorem waitExponential_bounds (n : Nat) :
    1 ≤ waitExponential n ∧ waitExponential n ≤ 10 := by
  unfold waitExponential
  refine ⟨le_max_left 1 _, max_le (by norm_num) (min_le_right _ _)⟩

/-- A message whose role is not recognized contributes nothing to the
llama3 rendering. -/
theorem llama3Part_eq_nil (m : PyMessage) (h : knownRole m = false) :
    llama3Part m = [] := by
  simp only [knownRole, Bool.or_eq_false_iff, beq_eq_false_iff_ne, ne_eq] at h
  obtain ⟨⟨h1, h2⟩, h3⟩ := h
  simp [llama3Part, h1, h2, h3]

/-- A message whose role is not recognized contributes nothing to the
chatml rendering. -/
theorem chatmlPart_eq_nil (m : PyMessage) (h : knownRole m = false) :
    chatmlPart m = [] := by
  simp only [knownRole, Bool.or_eq_false_iff, beq_eq_false_iff_ne, ne_eq] at h
  obtain ⟨⟨h1, h2⟩, h3⟩ := h
  simp [chatmlPart, h1, h2, h3]

/-- Filtering out the messages whose parts are empty does not change the
flattened list of rendered parts. -/
theorem flatten_map_filter_of_nil (part : PyMessage → List String)
    (hnil : ∀ m, knownRole m = false → part m = [])
    (messages : List PyMessage) :
    List.flatten ((messages.filter knownRole).map part) =
      List.flatten (messages.map part) := by
  induction messages with
  | nil => rfl
  | cons m ms ih =>
      by_cases h : knownRole m
      · simp [List.filter_cons, h, ih]
      · simp [List.filter_cons, h, hnil m (by simpa using h), ih]

/-- The dispatch of _messages_to_prompt, were the template name readable,
falls back to the llama3 rendering with the warning flag on every name
other than llama3 and chatml. -/
theorem dispatchTemplate_unknown_falls_back (t : String)
    (messages : List PyMessage)
    (h1 : t.toLower ≠ "llama3") (h2 : t.toLower ≠ "chatml") :
    dispatchTemplate t messages = (llama3Template messages, true) := by
  simp [dispatchTemplate, h1, h2]

/-! ### Claim theorems -/

/-- C1: the claim states that every accepted streaming chat-completion
request emits chat.completion.chunk events with incremental delta.content,
then a final chunk with finish_reason stop, then the DONE marker, and is
never terminated without these. In the code, LlamaClient defines no
attribute named chat_completion_stream, so routes._stream_chat_completion
raises AttributeError at the async-for header on every request and its
except branch yields exactly one error event: the stream always terminates
without any content chunk, finish chunk or DONE marker — shown both at the
concrete token sequence Hello, world and for every token sequence. -/
theorem c1_stream_single_error_event :
    streamChatCompletion ["Hello", " world"] =
      [SSEEvent.errorEvent
        "AttributeError: LlamaClient object has no attribute chat_completion_stream"] ∧
    ∀ tokens, streamChatCompletion tokens =
      [SSEEvent.errorEvent
        "AttributeError: LlamaClient object has no attribute chat_completion_stream"] :=
  ⟨rfl, fun _ => rfl⟩

/-- C2 counterexample: against the claim, a backend that fails with
connection errors on its first three attempts and would succeed on the
fourth does NOT lead to an eventual successful response: the retry budget
of stop_after_attempt(3) is exhausted by the three failures and the call
surfaces a RetryError, never reaching the fourth attempt. -/
theorem c2_three_failures_not_recovered :
    (retryCompletion c2Backend).attempts = 3 ∧
    isSuccess (retryCompletion c2Backend).result = false ∧
    (retryCompletion c2Backend).result =
      Except.error "RetryError: httpx.ConnectError" :=
  ⟨rfl, rfl, rfl⟩

/-- C2 amended: if the first two attempts fail, then a success on the
third attempt yields exactly 3 backend attempts and the successful
response, while a failure on the third attempt exhausts the budget after
exactly 3 attempts and surfaces the final error wrapped in a request-level
RetryError. -/
theorem c2_retry_budget (backend : Nat → BackendBehavior) (v e1 e2 : String)
    (h1 : attemptOutcome backend 1 = Except.error e1)
    (h2 : attemptOutcome backend 2 = Except.error e2) :
    (attemptOutcome backend 3 = Except.ok v →
      retryCompletion backend =
        ⟨3, [waitExponential 1, waitExponential 2], Except.ok v⟩) ∧
    (∀ e3, attemptOutcome backend 3 = Except.error e3 →
      (retryCompletion backend).attempts = 3 ∧
      (retryCompletion backend).result =
        Except.error ("RetryError: " ++ e3)) := by
  constructor
  · intro h3
    simp [retryCompletion, retryGo, h1, h2, h3]
  · intro e3 h3
    simp [retryCompletion, retryGo, h1, h2, h3]

/-- C2 witness: two connection failures followed by a success give exactly
3 attempts and the successful response. -/
theorem c2_retry_budget_witness :
    retryCompletion c2WitnessBackend =
      ⟨3, [waitExponential 1, waitExponential 2], Except.ok "ok"⟩ :=
  (c2_retry_budget c2WitnessBackend "ok" "httpx.ConnectError"
    "httpx.ConnectError" rfl rfl).1 rfl

/-- C3 counterexample: against the claim that non-retryable 4xx client
errors are never retried, a backend answering 404 on every attempt is
retried twice (two backoff sleeps of 2 and 4 seconds) for 3 attempts in
total, because the tenacity decorator carries no retry predicate and its
default retries after any raised exception, including httpx.HTTPStatusError
for a 404. -/
theorem c3_retries_on_4xx :
    (retryCompletion c3Backend).attempts = 3 ∧
    (retryCompletion c3Backend).waits = [2, 4] ∧
    (retryCompletion c3Backend).result =
      Except.error "RetryError: httpx.HTTPStatusError 404" := by
  refine ⟨rfl, by decide, rfl⟩

/-- C3 amended: the client retries after ANY failed attempt — connection
errors and every 4xx or 5xx status alike — up to 3 attempts total, with
exponential backoff sleeps each clamped between 1 and 10 seconds, and once
the attempts are exhausted it propagates the final failure wrapped in a
request-level RetryError. -/
theorem c3_retry_policy (backend : Nat → BackendBehavior)
    (hfail : ∀ n, isSuccess (attemptOutcome backend n) = false) :
    (retryCompletion backend).attempts = 3 ∧
    (retryCompletion backend).waits =
      [waitExponential 1, waitExponential 2] ∧
    (∀ w ∈ (retryCompletion backend).waits, 1 ≤ w ∧ w ≤ 10) ∧
    ∃ e, attemptOutcome backend 3 = Except.error e ∧
      (retryCompletion backend).result =
        Except.error ("RetryError: " ++ e) := by
  obtain ⟨e1, h1⟩ := error_of_not_success _ (hfail 1)
  obtain ⟨e2, h2⟩ := error_of_not_success _ (hfail 2)
  obtain ⟨e3, h3⟩ := error_of_not_success _ (hfail 3)
  refine ⟨?_, ?_, ?_, e3, h3, ?_⟩
  · simp [retryCompletion, retryGo, h1, h2, h3]
  · simp [retryCompletion, retryGo, h1, h2, h3]
  · intro w hw
    simp [retryCompletion, retryGo, h1, h2, h3] at hw
    rcases hw with hw | hw <;> rw [hw] <;> exact waitExponential_bounds _
  · simp [retryCompletion, retryGo, h1, h2, h3]

/-- C3 witness: a backend answering 500 on every attempt is retried to 3
attempts with the clamped backoff sleeps and the final failure is
propagated as a RetryError. -/
theorem c3_retry_policy_witness :
    (retryCompletion c3WitnessBackend).attempts = 3 ∧
    (retryCompletion c3WitnessBackend).waits =
      [waitExponential 1, waitExponential 2] ∧
    (∀ w ∈ (retryCompletion c3WitnessBackend).waits, 1 ≤ w ∧ w ≤ 10) ∧
    ∃ e, attemptOutcome c3WitnessBackend 3 = Except.error e ∧
      (retryCompletion c3WitnessBackend).result =
        Except.error ("RetryError: " ++ e) :=
  c3_retry_policy c3WitnessBackend (fun _ => rfl)

/-- C4 counterexample: against the claim that a message role outside the
set system, user, assistant is rejected with a validation error before any
backend call, the pydantic Message model types role as a plain str, so a
chat request whose message role is tool passes validation and is
dispatched to the backend. -/
theorem c4_unknown_role_accepted :
    createChatCompletionRoute c4BadRoleRequest =
      ChatRouteResult.dispatched
        [⟨some "tool", some "use the weather tool"⟩] ∧
    createChatCompletionRoute c4BadRoleRequest ≠
      ChatRouteResult.validationError :=
  ⟨rfl, by decide⟩

/-- C4 amended: a completion request missing its prompt, a chat request
missing its messages, and a chat request containing a message missing its
role or content are each rejected with a validation error before any
backend call is dispatched; the role string itself is not checked against
the role enum. -/
theorem c4_validation_rejects (rc : RawCompletionRequest)
    (r1 r2 : RawChatRequest) (m : PyMessage) (pre post : List PyMessage)
    (hp : rc.prompt = none) (h1 : r1.messages = none)
    (h2 : r2.messages = some (pre ++ m :: post))
    (hm : validMessage m = false) :
    createCompletionRoute rc = CompletionRouteResult.validationError ∧
    createChatCompletionRoute r1 = ChatRouteResult.validationError ∧
    createChatCompletionRoute r2 = ChatRouteResult.validationError := by
  refine ⟨?_, ?_, ?_⟩
  · simp [createCompletionRoute, hp]
  · simp [createChatCompletionRoute, validateChatRequest, h1]
  · simp [createChatCompletionRoute, validateChatRequest, h2,
      List.all_append, hm]

/-- C4 witness: concrete requests with a missing prompt, missing messages,
and a message without a role are all rejected. -/
theorem c4_validation_rejects_witness :
    createCompletionRoute ⟨none, none, none, none, none, none, none⟩ =
      CompletionRouteResult.validationError ∧
    createChatCompletionRoute ⟨none⟩ = ChatRouteResult.validationError ∧
    createChatCompletionRoute ⟨some [⟨none, some "hi"⟩]⟩ =
      ChatRouteResult.validationError :=
  c4_validation_rejects ⟨none, none, none, none, none, none, none⟩ ⟨none⟩
    ⟨some [⟨none, some "hi"⟩]⟩ ⟨none, some "hi"⟩ [] [] rfl rfl rfl rfl

/-- C5: the claim states that strategy B renders each turn with a newline
character between role and content. The Python source writes the escaped
two-character sequence backslash-n inside its f-strings and its join
string, so the rendered prompt contains literal backslash-n pairs and no
newline: at the single user message hi the produced prompt is the
backslash-n form, which differs from the newline form the claim
describes. -/
theorem c5_chatml_literal_backslash :
    chatmlTemplate [⟨some "user", some "hi"⟩] =
      "<|im_start|>user\\nhi<|im_end|>\\n<|im_start|>assistant\\n" ∧
    ("<|im_start|>user\\nhi<|im_end|>\\n<|im_start|>assistant\\n" : String) ≠
      "<|im_start|>user\nhi<|im_end|>\n<|im_start|>assistant\n" :=
  ⟨rfl, by decide⟩

/-- C6: in both the completion route and the chat-completion response
shaping, finish_reason is the string stop exactly when the backend result
carries the stop flag set to true, and otherwise (flag false or absent)
it is the string length; no third value occurs. -/
theorem c6_finish_reason_binary (result : LlamaResult) :
    (routeFinishReason result = "stop" ↔ result.stop = some true) ∧
    (chatFinishReason result = "stop" ↔ result.stop = some true) ∧
    (routeFinishReason result = "stop" ∨ routeFinishReason result = "length") ∧
    (chatFinishReason result = "stop" ∨ chatFinishReason result = "length") := by
  unfold routeFinishReason chatFinishReason
  rcases h : result.stop with _ | b
  · simp [h]
  · cases b <;> simp [h]

/-- C7: a valid completion request whose optional sampling fields are all
unset is dispatched to the backend with every sampling field present and
resolved to the configured default, on both the non-streaming payload
(through the route) and the streaming payload; the payload structure has
no absent sampling field by construction. -/
theorem c7_unset_fields_resolved_to_defaults (p : String) :
    createCompletionRoute ⟨some p, none, none, none, none, none, none⟩ =
      CompletionRouteResult.dispatched
        { prompt := p, n_predict := settings.default_max_tokens,
          temperature := settings.default_temperature,
          top_p := settings.default_top_p,
          top_k := settings.default_top_k,
          repeat_penalty := settings.default_repeat_penalty,
          stream := false, stop := none } ∧
    completionStreamPayload p none none none none none none =
      { prompt := p, n_predict := settings.default_max_tokens,
        temperature := settings.default_temperature,
        top_p := settings.default_top_p,
        top_k := settings.default_top_k,
        repeat_penalty := settings.default_repeat_penalty,
        stream := true, stop := none } :=
  ⟨rfl, rfl⟩

/-- C8: the claim states that an unrecognized configured chat-template
name falls back to the strategy A prompt with a logged warning and no
exception. In the code, the Settings class declares no chat_template
field, so the read settings.chat_template in _messages_to_prompt raises
AttributeError on every call — no prompt is ever produced and an
exception IS raised, for every conversation. -/
theorem c8_messages_to_prompt_raises (messages : List PyMessage) :
    messagesToPrompt messages =
      Except.error
        "AttributeError: Settings object has no attribute chat_template" :=
  rfl

/-- C9: a caller-supplied zero value in any optional sampling field is
replaced by the configured default in the dispatched payload, on both the
non-streaming and the streaming payload, because the merge uses the Python
falsy-or; and every configured default is itself nonzero, so the zero
never survives. -/
theorem c9_zero_values_replaced_by_defaults (p : String) (mt : Option Nat)
    (t tp rp : Option ℚ) (tk : Option Nat) (st : Option (List String)) :
    (completionPayload p (some 0) t tp tk rp st).n_predict =
      settings.default_max_tokens ∧
    (completionPayload p mt (some 0) tp tk rp st).temperature =
      settings.default_temperature ∧
    (completionPayload p mt t (some 0) tk rp st).top_p =
      settings.default_top_p ∧
    (completionPayload p mt t tp (some 0) rp st).top_k =
      settings.default_top_k ∧
    (completionPayload p mt t tp tk (some 0) st).repeat_penalty =
      settings.default_repeat_penalty ∧
    (completionStreamPayload p (some 0) t tp tk rp st).n_predict =
      settings.default_max_tokens ∧
    (completionStreamPayload p mt (some 0) tp tk rp st).temperature =
      settings.default_temperature ∧
    (completionStreamPayload p mt t (some 0) tk rp st).top_p =
      settings.default_top_p ∧
    (completionStreamPayload p mt t tp (some 0) rp st).top_k =
      settings.default_top_k ∧
    (completionStreamPayload p mt t tp tk (some 0) st).repeat_penalty =
      settings.default_repeat_penalty ∧
    settings.default_max_tokens ≠ 0 ∧
    settings.default_temperature ≠ 0 ∧
    settings.default_top_p ≠ 0 ∧
    settings.default_top_k ≠ 0 ∧
    settings.default_repeat_penalty ≠ 0 := by
  refine ⟨rfl, rfl, rfl, rfl, rfl, rfl, rfl, rfl, rfl, rfl,
    ?_, ?_, ?_, ?_, ?_⟩ <;> norm_num [settings]

/-- C10: both templates silently omit every message whose role is outside
the recognized set: the prompt rendered from a conversation equals the
prompt rendered from the same conversation with the unrecognized-role
messages filtered out, under strategy A and under strategy B. -/
theorem c10_unknown_roles_omitted (messages : List PyMessage) :
    llama3Template messages = llama3Template (messages.filter knownRole) ∧
    chatmlTemplate messages = chatmlTemplate (messages.filter knownRole) := by
  constructor
  · unfold llama3Template
    rw [flatten_map_filter_of_nil llama3Part llama3Part_eq_nil]
  · unfold chatmlTemplate
    rw [flatten_map_filter_of_nil chatmlPart chatmlPart_eq_nil]

end GpuServer
